import Mathlib

/-!
Shallow embedding of the EchoFriend conversational practice tool
(`echofriend.py`): the session data model, the per-turn pipeline
(record, transcribe, respond, synthesize, play), the end-of-session
feedback flow, and the interactive loop's quit / turn-counter logic.

External services (speech-to-text, chat completion, text-to-speech,
audio device, playback backend) are modelled as oracle parameters:
each turn receives the outcomes those collaborators would produce, and
the embedded functions reproduce the control flow of the source around
those outcomes.  The set of files written to disk is threaded
explicitly as a list of paths.
-/

/-- The role tag of a transcript entry (`"system"`, `"user"`, `"assistant"`). -/
inductive Role where
  | system
  | user
  | assistant
deriving DecidableEq, Repr

/-- One entry of `conversation_history`: a `{"role": ..., "content": ...}` dict. -/
structure Message where
  role : Role
  content : String
deriving DecidableEq, Repr

/-- The mutable state of an `EchoFriend` instance that the claims concern:
the scenario label, `conversation_history`, and `user_inputs` (the raw
user-utterance log; each entry stores the text together with the
`timestamp` field, which the source sets to `len(self.conversation_history)`
at append time). -/
structure SessionState where
  scenario : String
  conversation_history : List Message
  user_inputs : List (String × Nat)
deriving DecidableEq, Repr

/-- The possible shapes of a successful transcription-service response,
as distinguished by `speech_to_text`: a plain string, an object exposing a
`text` attribute, a mapping containing a `text` key, or any other shape
(for which the source falls back to `str(transcript)`, modelled here by
the `other` constructor carrying that string rendering). -/
inductive TranscriptValue where
  | str (s : String)
  | objWithText (t : String)
  | mapWithText (t : String)
  | other (strRendering : String)
deriving DecidableEq, Repr

/-- `EchoFriend.speech_to_text`: the service call either raises (modelled
by `Except.error`, source returns `None`) or yields a `TranscriptValue`,
which the source normalizes: a plain string is returned as is, an object
with a `text` attribute yields that attribute, a dict with a `text` key
yields that value, and any other shape is returned as `str(transcript)`. -/
def speech_to_text : Except String TranscriptValue → Option String
  | Except.error _ => none
  | Except.ok (TranscriptValue.str s) => some s
  | Except.ok (TranscriptValue.objWithText t) => some t
  | Except.ok (TranscriptValue.mapWithText t) => some t
  | Except.ok (TranscriptValue.other r) => some r

/-- The state change performed at the top of `EchoFriend.generate_response`
before the chat API call: append `{"text": user_text, "timestamp":
len(conversation_history)}` to `user_inputs`, then append the `user`
message to `conversation_history`. -/
def append_user_entry (st : SessionState) (user_text : String) : SessionState :=
  { st with
    user_inputs := st.user_inputs ++ [(user_text, st.conversation_history.length)]
    conversation_history := st.conversation_history ++ [⟨Role.user, user_text⟩] }

/-- `EchoFriend.generate_response`: appends the user entry, calls the chat
API on the updated `conversation_history`; on success appends the
`assistant` message and returns the reply, on an exception returns `None`
(the user entry having already been appended). -/
def generate_response (st : SessionState) (user_text : String)
    (api : List Message → Except String String) : SessionState × Option String :=
  let st1 := append_user_entry st user_text
  match api st1.conversation_history with
  | Except.error _ => (st1, none)
  | Except.ok ai_response =>
      ({ st1 with
          conversation_history := st1.conversation_history ++ [⟨Role.assistant, ai_response⟩] },
        some ai_response)

/-- The pipeline stage at which a turn failed. -/
inductive Stage where
  | capture
  | transcription
  | response
  | synthesis
deriving DecidableEq, Repr

/-- The outcome of one conversation turn (the source returns `True` /
`False`; the failing stage is identified by which early return fired). -/
inductive TurnResult where
  | Completed
  | Failed (stage : Stage)
deriving DecidableEq, Repr

/-- The possible outcomes of attempting playback in `play_audio`:
success, `pygame` missing (`ImportError`), or a playback exception. -/
inductive PlaybackOutcome where
  | success
  | backendUnavailable
  | playbackError
deriving DecidableEq, Repr

/-- `EchoFriend.play_audio`: every outcome is absorbed internally (logged),
and the function never touches the files on disk, so as a function of the
disk contents it is the identity regardless of the outcome. -/
def play_audio (_outcome : PlaybackOutcome) (disk : List String) : List String := disk

/-- A digit character as produced by Python decimal formatting:
code point 48 + d for a digit d. -/
def digitChar10 (d : Nat) : Char := Char.ofNat (48 + d)

/-- Python `str(n)` for a nonnegative integer: the decimal digit string
(most significant digit first), with `str(0) = "0"`. -/
def pyStrNat (n : Nat) : String :=
  if n = 0 then "0" else ⟨((Nat.digits 10 n).map digitChar10).reverse⟩

/-- The capture destination path built in `record_user_input`:
`str(self.audio_dir / f"user_input_N.wav")`. -/
def user_input_file (turn_number : Nat) : String :=
  "audio_files/user_input_" ++ pyStrNat turn_number ++ ".wav"

/-- The synthesis destination path built in `text_to_speech`:
`self.audio_dir / f"ai_response_N.mp3"`. -/
def ai_response_file (turn_number : Nat) : String :=
  "audio_files/ai_response_" ++ pyStrNat turn_number ++ ".mp3"

/-- The outcomes the external collaborators produce during one turn:
whether `record_audio` returned a file, the transcription-service
response, the chat API as a function of the message list it is sent,
whether text-to-speech succeeded, and the playback outcome. -/
structure TurnOracles where
  record_result : Option Unit
  transcription_api : Except String TranscriptValue
  response_api : List Message → Except String String
  synthesis_ok : Bool
  playback : PlaybackOutcome

/-- `EchoFriend.process_conversation_turn`: the five-step pipeline.
Step 1 records (`None` aborts with a capture failure); step 2 transcribes
(`if not user_text`, i.e. `None` or the empty string, aborts with a
transcription failure); step 3 generates the response (`if not
ai_response`, i.e. `None` or the empty string, aborts with a response
failure — state changes made inside `generate_response` persist); step 4
synthesizes (failure aborts with a synthesis failure); step 5 plays the
audio, whose outcome never affects the returned result.  Returns the
updated session state, the updated disk contents, and the turn result. -/
def process_conversation_turn (turn_number : Nat) (st : SessionState)
    (disk : List String) (o : TurnOracles) :
    SessionState × List String × TurnResult :=
  match o.record_result with
  | none => (st, disk, TurnResult.Failed Stage.capture)
  | some _ =>
    let disk1 := disk ++ [user_input_file turn_number]
    match speech_to_text o.transcription_api with
    | none => (st, disk1, TurnResult.Failed Stage.transcription)
    | some user_text =>
      if user_text = "" then (st, disk1, TurnResult.Failed Stage.transcription)
      else
        match generate_response st user_text o.response_api with
        | (st1, none) => (st1, disk1, TurnResult.Failed Stage.response)
        | (st1, some ai_response) =>
          if ai_response = "" then (st1, disk1, TurnResult.Failed Stage.response)
          else if o.synthesis_ok then
            (st1, play_audio o.playback (disk1 ++ [ai_response_file turn_number]),
              TurnResult.Completed)
          else (st1, disk1, TurnResult.Failed Stage.synthesis)

/-- One attempted read from the input stream inside the recording loop:
either a chunk of frames (`stream.read`) or a raised exception. -/
inductive FrameRead where
  | frame (data : Nat)
  | readError
deriving DecidableEq, Repr

/-- The frame-accumulation loop of `AudioRecorder.record_audio`: each
successful read is appended to `frames`; the first read exception is
logged and `break`s the loop, discarding every later read. -/
def record_frames : List FrameRead → List Nat
  | [] => []
  | FrameRead.frame d :: rest => d :: record_frames rest
  | FrameRead.readError :: _ => []

/-- Modelled from the spec: the frame loop the specification describes,
which tolerates an individual frame-read error by logging and skipping
that frame while continuing to accumulate subsequent frames.  Used only
to compare against `record_frames`, the loop the source implements. -/
def record_frames_spec_skip : List FrameRead → List Nat
  | [] => []
  | FrameRead.frame d :: rest => d :: record_frames_spec_skip rest
  | FrameRead.readError :: rest => record_frames_spec_skip rest

/-- The tail of `AudioRecorder.record_audio` after the loop: if no frames
were accumulated the function returns `None`; otherwise it writes the
file and returns the filename it was given. -/
def record_audio (reads : List FrameRead) (filename : String) : Option String :=
  if (record_frames reads).length = 0 then none else some filename

/-- `EchoFriend._format_conversation_for_analysis`: formats
`conversation_history` for analysis, labeling `user` entries with
`Learner:` and `assistant` entries with `Assistant:`, skipping the
`system` entry, and joining the lines with newlines. -/
def format_conversation_for_analysis (history : List Message) : String :=
  String.intercalate "\n" (history.filterMap fun msg =>
    match msg.role with
    | Role.user => some ("Learner: " ++ msg.content)
    | Role.assistant => some ("Assistant: " ++ msg.content)
    | Role.system => none)

/-- The fixed text of the feedback prompt before the interpolated
conversation history. -/
def feedback_prompt_preamble : String :=
  "Please analyze the following Dutch language learning conversation and provide detailed structured feedback.\n\nConversation history:\n"

/-- The fixed text of the feedback prompt after the interpolated
conversation history: the five-part rubric and the tone instruction. -/
def feedback_prompt_rubric : String :=
  "\n\nPlease provide feedback in the following structure:\n\n1. **Overall Performance Summary**\n   - How effective was the communication?\n   - Was the scenario task completed successfully?\n\n2. **Language Highlights** (What went well)\n   - Correctly used vocabulary or sentence patterns\n   - Clear expressions\n\n3. **Improvement Suggestions** (Gentle and constructive)\n   - Grammar issues and correct usage\n   - Vocabulary choice recommendations\n   - Pronunciation tips (if can be inferred from text)\n\n4. **Next Practice Focus**\n   - Specific language points to practice\n   - Suggested new scenarios to try\n\n5. **Encouragement**\n   - Positive feedback on learning progress\n\nPlease use a friendly, encouraging tone. The focus is on building learner confidence."

/-- The `feedback_prompt` f-string of `EchoFriend.generate_feedback`: the
fixed preamble, the formatted conversation history, and the fixed rubric. -/
def feedback_prompt (history : List Message) : String :=
  feedback_prompt_preamble ++ format_conversation_for_analysis history ++ feedback_prompt_rubric

/-- The feedback request `EchoFriend.generate_feedback` builds from the
session: the f-string interpolates only
`self._format_conversation_for_analysis()`, a function of
`conversation_history` alone. -/
def generate_feedback_prompt (st : SessionState) : String :=
  feedback_prompt st.conversation_history

/-- The five section headers of the feedback rubric. -/
def rubric_section_headers : List String :=
  ["1. **Overall Performance Summary**",
   "2. **Language Highlights**",
   "3. **Improvement Suggestions**",
   "4. **Next Practice Focus**",
   "5. **Encouragement**"]

/-- `EchoFriend.generate_feedback`: always sends the feedback prompt to
the chat API (the returned `Bool` records that the Response client was
invoked); on success returns the feedback text, and on an exception
returns the fixed apology string. -/
def generate_feedback (st : SessionState)
    (api : String → Except String String) : String × Bool :=
  match api (generate_feedback_prompt st) with
  | Except.ok feedback => (feedback, true)
  | Except.error _ => ("Sorry, could not generate feedback due to an error.", true)

/-- The end-of-session feedback flow of `main` (after the loop ends): if
`len(echo_friend.user_inputs) > 0` it calls `generate_feedback`,
otherwise it prints the fixed placeholder without any client call.  The
`Bool` records whether the Response client was invoked. -/
def session_end_feedback (st : SessionState)
    (api : String → Except String String) : String × Bool :=
  if st.user_inputs.length > 0 then generate_feedback st api
  else ("No conversation recorded. See you next time!", false)

/-- The whitespace predicate of Python `str.strip()` (the ASCII
whitespace characters: space, tab, newline, vertical tab, form feed,
carriage return). -/
def pyIsSpace (c : Char) : Bool :=
  c = ' ' || c = '\t' || c = '\n' || c = Char.ofNat 11 || c = Char.ofNat 12 || c = '\r'

/-- Python `str.strip()`: removes leading and trailing whitespace. -/
def pyStrip (s : String) : String :=
  ⟨((s.data.dropWhile pyIsSpace).reverse.dropWhile pyIsSpace).reverse⟩

/-- Python `str.lower()` on the characters this program compares:
lowercases every character. -/
def pyLower (s : String) : String := ⟨s.data.map Char.toLower⟩

/-- The quit keywords of the interactive loop: `['quit', 'exit', 'q']`. -/
def quit_commands : List String := ["quit", "exit", "q"]

/-- What the interactive loop does with one pre-turn prompt input. -/
inductive LoopAction where
  | endSession
  | attemptTurn
deriving DecidableEq, Repr

/-- The pre-turn check of `main`: `user_choice = input().strip().lower()`;
if `user_choice in ['quit', 'exit', 'q']` the loop breaks, otherwise the
turn is attempted. -/
def loop_quit_decision (raw_input : String) : LoopAction :=
  if pyLower (pyStrip raw_input) ∈ quit_commands then LoopAction.endSession
  else LoopAction.attemptTurn

/-- The turn-counter update of the loop body of `main`: after a
successful turn `turn += 1`; after a failed turn (when the user chooses
to retry) the loop `continue`s without touching `turn`. -/
def next_turn (turn : Nat) (success : Bool) : Nat :=
  if success then turn + 1 else turn

/-- The entries of the conversation history that
`format_conversation_for_analysis` renders: every `user` and `assistant`
entry in order, the `system` entry skipped. -/
def visible_entries : List Message → List Message
  | [] => []
  | msg :: rest =>
    match msg.role with
    | Role.system => visible_entries rest
    | Role.user => msg :: visible_entries rest
    | Role.assistant => msg :: visible_entries rest

/-- The labeled line produced for one rendered entry of the analysis log
(`Learner:` for the user, `Assistant:` for the assistant). -/
def label_line (msg : Message) : String :=
  match msg.role with
  | Role.user => "Learner: " ++ msg.content
  | Role.assistant => "Assistant: " ++ msg.content
  | Role.system => ""

/-! Helper lemmas about the decimal filename encoding. -/

lemma digitChar10_inj_of_lt {a b : Nat} (ha : a < 10) (hb : b < 10)
    (h : digitChar10 a = digitChar10 b) : a = b := by
  interval_cases a <;> interval_cases b <;> revert h <;> decide

lemma map_digitChar10_inj : ∀ {L1 L2 : List Nat},
    (∀ d ∈ L1, d < 10) → (∀ d ∈ L2, d < 10) →
    L1.map digitChar10 = L2.map digitChar10 → L1 = L2
  | [], [], _, _, _ => rfl
  | [], _ :: _, _, _, h => by simp at h
  | _ :: _, [], _, _, h => by simp at h
  | a :: L1, b :: L2, h1, h2, h => by
    simp only [List.map_cons, List.cons.injEq] at h
    have hab : a = b :=
      digitChar10_inj_of_lt (h1 a (List.mem_cons_self a L1)) (h2 b (List.mem_cons_self b L2)) h.1
    have htl : L1 = L2 :=
      map_digitChar10_inj (fun d hd => h1 d (List.mem_cons_of_mem a hd))
        (fun d hd => h2 d (List.mem_cons_of_mem b hd)) h.2
    rw [hab, htl]

lemma digits_lt_ten (k : Nat) : ∀ d ∈ Nat.digits 10 k, d < 10 :=
  fun _ hd => Nat.digits_lt_base (by norm_num) hd

lemma pyStrNat_zero_of_digits_eq (m : Nat)
    (h : (Nat.digits 10 m).map digitChar10 = ['0']) : m = 0 := by
  have hdig : Nat.digits 10 m = [0] := by
    have h0 : digitChar10 0 = '0' := rfl
    cases hm : Nat.digits 10 m with
    | nil => rw [hm] at h; simp at h
    | cons d tl =>
      rw [hm] at h
      simp only [List.map_cons, List.cons.injEq] at h
      have hd0 : d = 0 := by
        apply digitChar10_inj_of_lt (digits_lt_ten m d (hm ▸ List.mem_cons_self d tl)) (by norm_num)
        rw [h.1, h0]
      have htl : tl = [] := by
        cases tl with
        | nil => rfl
        | cons x xs => simp at h
      rw [hd0, htl]
  have := Nat.ofDigits_digits 10 m
  rw [hdig] at this
  simpa [Nat.ofDigits_cons, Nat.ofDigits_nil] using this.symm

lemma pyStrNat_inj {n m : Nat} (h : pyStrNat n = pyStrNat m) : n = m := by
  by_cases n0 : n = 0 <;> by_cases m0 : m = 0
  · rw [n0, m0]
  · exfalso
    rw [pyStrNat, pyStrNat, if_pos n0, if_neg m0] at h
    have hd : ['0'] = ((Nat.digits 10 m).map digitChar10).reverse := congrArg String.data h
    have hmap : (Nat.digits 10 m).map digitChar10 = ['0'] := by
      have h2 := congrArg List.reverse hd
      rw [List.reverse_reverse] at h2
      exact h2.symm.trans rfl
    exact m0 (pyStrNat_zero_of_digits_eq m hmap)
  · exfalso
    rw [pyStrNat, pyStrNat, if_neg n0, if_pos m0] at h
    have hd : ((Nat.digits 10 n).map digitChar10).reverse = ['0'] := congrArg String.data h
    have hmap : (Nat.digits 10 n).map digitChar10 = ['0'] := by
      have h2 := congrArg List.reverse hd
      rw [List.reverse_reverse] at h2
      exact h2.trans rfl
    exact n0 (pyStrNat_zero_of_digits_eq n hmap)
  · rw [pyStrNat, pyStrNat, if_neg n0, if_neg m0] at h
    have hd : ((Nat.digits 10 n).map digitChar10).reverse
        = ((Nat.digits 10 m).map digitChar10).reverse := congrArg String.data h
    have hmap := List.reverse_inj.mp hd
    have hdig := map_digitChar10_inj (digits_lt_ten n) (digits_lt_ten m) hmap
    calc n = Nat.ofDigits 10 (Nat.digits 10 n) := (Nat.ofDigits_digits 10 n).symm
      _ = Nat.ofDigits 10 (Nat.digits 10 m) := by rw [hdig]
      _ = m := Nat.ofDigits_digits 10 m

lemma path_encode_inj (pre suf : String) {n m : Nat}
    (h : pre ++ pyStrNat n ++ suf = pre ++ pyStrNat m ++ suf) : n = m := by
  have hd : (pre.data ++ (pyStrNat n).data) ++ suf.data
      = (pre.data ++ (pyStrNat m).data) ++ suf.data := congrArg String.data h
  rw [List.append_assoc, List.append_assoc] at hd
  have h1 := List.append_cancel_left hd
  have h2 := List.append_cancel_right h1
  exact pyStrNat_inj (String.ext h2)

lemma user_input_file_ne_ai_response_file (n m : Nat) :
    user_input_file n ≠ ai_response_file m := by
  intro h
  have hd :
      'a' :: 'u' :: 'd' :: 'i' :: 'o' :: '_' :: 'f' :: 'i' :: 'l' :: 'e' :: 's' :: '/' :: 'u' ::
        ("ser_input_".data ++ ((pyStrNat n).data ++ ".wav".data))
      = 'a' :: 'u' :: 'd' :: 'i' :: 'o' :: '_' :: 'f' :: 'i' :: 'l' :: 'e' :: 's' :: '/' :: 'a' ::
        ("i_response_".data ++ ((pyStrNat m).data ++ ".mp3".data)) :=
    congrArg String.data h
  simp only [List.cons.injEq] at hd
  exact absurd hd.2.2.2.2.2.2.2.2.2.2.2.2.1 (by decide)

/-! Helper lemmas about the feedback prompt. -/

lemma filterMap_format_eq (history : List Message) :
    (history.filterMap fun msg =>
      match msg.role with
      | Role.user => some ("Learner: " ++ msg.content)
      | Role.assistant => some ("Assistant: " ++ msg.content)
      | Role.system => none) = (visible_entries history).map label_line := by
  induction history with
  | nil => rfl
  | cons msg tl ih =>
    obtain ⟨r, c⟩ := msg
    cases r <;> simp [visible_entries, label_line, List.filterMap_cons, ih]

lemma feedback_prompt_decomposition (history : List Message) :
    feedback_prompt history =
      feedback_prompt_preamble ++
        String.intercalate "\n" ((visible_entries history).map label_line) ++
        feedback_prompt_rubric := by
  rw [feedback_prompt, format_conversation_for_analysis, filterMap_format_eq]

set_option maxRecDepth 100000 in
lemma rubric_headers_infix_rubric :
    ∀ hdr ∈ rubric_section_headers, hdr.data <:+: feedback_prompt_rubric.data := by
  intro hdr hm
  simp only [rubric_section_headers, List.mem_cons, List.not_mem_nil, or_false] at hm
  rcases hm with rfl | rfl | rfl | rfl | rfl <;> decide

lemma rubric_suffix_of_prompt (history : List Message) :
    feedback_prompt_rubric.data <:+ (feedback_prompt history).data :=
  List.suffix_append
    (feedback_prompt_preamble.data ++ (format_conversation_for_analysis history).data)
    feedback_prompt_rubric.data

/-! Claim theorems. -/

/-- C1 counterexample: the claim says the turn number passed to the next
iteration is exactly one greater than the current one regardless of
success or failure, but after a failed turn (with the user choosing to
retry) the loop continues without incrementing, so from turn 1 the next
iteration runs with turn 1 again, not 2. -/
theorem C1_counterexample_no_increment_on_failure :
    ¬ (next_turn 1 false = 1 + 1) := by decide

/-- C1 (amended): the turn counter starts at 1 and is incremented exactly
once per successful turn; after a failed turn the same turn number is
reused for the retry.  The capture and synthesis file paths generated for
turn N never equal those generated for any turn M different from N. -/
theorem C1_turn_counter_and_path_uniqueness :
    (∀ t : Nat, next_turn t true = t + 1) ∧
    (∀ t : Nat, next_turn t false = t) ∧
    (∀ n m : Nat, n ≠ m →
      user_input_file n ≠ user_input_file m ∧ ai_response_file n ≠ ai_response_file m) ∧
    (∀ n m : Nat, user_input_file n ≠ ai_response_file m) := by
  refine ⟨fun t => rfl, fun t => rfl, fun n m hnm => ⟨?_, ?_⟩,
    user_input_file_ne_ai_response_file⟩
  · exact fun h => hnm (path_encode_inj "audio_files/user_input_" ".wav" h)
  · exact fun h => hnm (path_encode_inj "audio_files/ai_response_" ".mp3" h)

/-- C1 witness: the amended theorem at concrete inputs. -/
theorem C1_witness :
    next_turn 3 true = 4 ∧ user_input_file 1 ≠ user_input_file 2 :=
  ⟨C1_turn_counter_and_path_uniqueness.1 3,
    (C1_turn_counter_and_path_uniqueness.2.2.1 1 2 (by decide)).1⟩

/-- C2 counterexample: a transcription response of an unrecognized shape
is coerced with the equivalent of Python `str` and still returned as a
Text result, not an error. -/
theorem C2_counterexample_other_shape_returns_text :
    speech_to_text (Except.ok (TranscriptValue.other "duration=3.2")) =
      some "duration=3.2" ∧
    speech_to_text (Except.ok (TranscriptValue.other "duration=3.2")) ≠ none :=
  ⟨rfl, fun h => Option.noConfusion h⟩

/-- C2 (amended): the transcription operation returns a Text result
exactly when the service call raises no exception: a plain string, an
object exposing a text field, and a mapping with a text key normalize to
their text, and any other shape is coerced to its string rendering and
still returned as Text; only a raised exception yields an error result. -/
theorem C2_transcription_normalization (r : Except String TranscriptValue) :
    (∀ s, r = Except.ok (TranscriptValue.str s) → speech_to_text r = some s) ∧
    (∀ t, r = Except.ok (TranscriptValue.objWithText t) → speech_to_text r = some t) ∧
    (∀ t, r = Except.ok (TranscriptValue.mapWithText t) → speech_to_text r = some t) ∧
    (∀ x, r = Except.ok (TranscriptValue.other x) → speech_to_text r = some x) ∧
    (∀ e, r = Except.error e → speech_to_text r = none) ∧
    ((speech_to_text r).isSome = true ↔ ∃ v, r = Except.ok v) := by
  refine ⟨fun s h => by rw [h]; rfl, fun t h => by rw [h]; rfl, fun t h => by rw [h]; rfl,
    fun x h => by rw [h]; rfl, fun e h => by rw [h]; rfl, ?_, ?_⟩
  · intro hs
    cases r with
    | error e => exact absurd hs (by rw [show speech_to_text (Except.error e) = none from rfl]; decide)
    | ok v => exact ⟨v, rfl⟩
  · rintro ⟨v, rfl⟩
    cases v <;> rfl

/-- C2 witness: the amended theorem at a concrete input. -/
theorem C2_witness :
    speech_to_text (Except.ok (TranscriptValue.objWithText "Hallo")) = some "Hallo" :=
  (C2_transcription_normalization
    (Except.ok (TranscriptValue.objWithText "Hallo"))).2.1 "Hallo" rfl

/-- C3: when the raw user-utterance log is empty, the end-of-session
feedback flow short-circuits to the fixed placeholder text and never
invokes the Response client (the returned flag records that no client
call was made). -/
theorem C3_empty_log_short_circuits (st : SessionState)
    (api : String → Except String String) (h : st.user_inputs = []) :
    session_end_feedback st api =
      ("No conversation recorded. See you next time!", false) := by
  simp [session_end_feedback, h]

/-- C3 witness: the theorem at a concrete empty-log session. -/
theorem C3_witness :
    session_end_feedback ⟨"Supermarket Shopping", [], []⟩
        (fun _ => Except.ok "feedback") =
      ("No conversation recorded. See you next time!", false) :=
  C3_empty_log_short_circuits ⟨"Supermarket Shopping", [], []⟩
    (fun _ => Except.ok "feedback") rfl

/-- C4 counterexample: two sessions with the same scenario, the same raw
user-utterance log and the same user entries, differing only in an
assistant entry, produce different feedback requests — so the request is
not built from the user utterances and the scenario label alone. -/
theorem C4_counterexample_assistant_entries_included :
    generate_feedback_prompt
        ⟨"Supermarket Shopping",
          [⟨Role.user, "hallo"⟩, ⟨Role.assistant, "goedendag"⟩], [("hallo", 0)]⟩ ≠
      generate_feedback_prompt
        ⟨"Supermarket Shopping",
          [⟨Role.user, "hallo"⟩, ⟨Role.assistant, "doei"⟩], [("hallo", 0)]⟩ := by
  decide

/-- C4 (amended): the end-of-session feedback request is built from the
transcript's user AND assistant entries (the system entry excluded),
labeled Learner and Assistant respectively; the scenario label is not
included in the request; and the request asks for a structured report
under the fixed five-part rubric (overall performance, language
highlights, improvement suggestions, next-practice focus,
encouragement). -/
theorem C4_feedback_request_content :
    (∀ st : SessionState, ∀ sc : String,
      generate_feedback_prompt { st with scenario := sc } = generate_feedback_prompt st) ∧
    (∀ h1 h2 : List Message, visible_entries h1 = visible_entries h2 →
      feedback_prompt h1 = feedback_prompt h2) ∧
    (∀ history : List Message, feedback_prompt history =
      feedback_prompt_preamble ++
        String.intercalate "\n" ((visible_entries history).map label_line) ++
        feedback_prompt_rubric) ∧
    (∀ hdr ∈ rubric_section_headers, ∀ history : List Message,
      hdr.data <:+: (feedback_prompt history).data) := by
  refine ⟨fun st sc => rfl, ?_, feedback_prompt_decomposition, ?_⟩
  · intro h1 h2 hv
    rw [feedback_prompt_decomposition h1, feedback_prompt_decomposition h2, hv]
  · intro hdr hm history
    exact (rubric_headers_infix_rubric hdr hm).trans
      (rubric_suffix_of_prompt history).isInfix

/-- C4 witness: the amended theorem at concrete inputs — the prompt
ignores a changed scenario label and a system entry. -/
theorem C4_witness :
    generate_feedback_prompt
        { (⟨"Supermarket Shopping", [], []⟩ : SessionState) with scenario := "Restaurant" } =
      generate_feedback_prompt (⟨"Supermarket Shopping", [], []⟩ : SessionState) ∧
    feedback_prompt [⟨Role.system, "sys prompt"⟩] = feedback_prompt [] :=
  ⟨C4_feedback_request_content.1 ⟨"Supermarket Shopping", [], []⟩ "Restaurant",
    C4_feedback_request_content.2.1 [⟨Role.system, "sys prompt"⟩] [] rfl⟩

/-- C5: when the Response client call fails after the user entry was
appended, the turn returns a response-stage failure, the user entry
persists in the transcript, and that entry is part of the message list
the Response client receives on the next attempted turn (the next turn
sends the persisted history with its own user entry appended). -/
theorem C5_failed_response_keeps_user_entry (st : SessionState) (disk : List String)
    (tn : Nat) (o : TurnOracles) (user_text e : String)
    (hcap : o.record_result = some ())
    (htr : speech_to_text o.transcription_api = some user_text)
    (hne : user_text ≠ "")
    (herr : o.response_api (append_user_entry st user_text).conversation_history =
      Except.error e) :
    (process_conversation_turn tn st disk o).2.2 = TurnResult.Failed Stage.response ∧
    (process_conversation_turn tn st disk o).1.conversation_history =
      st.conversation_history ++ [⟨Role.user, user_text⟩] ∧
    ∀ next_text : String, (⟨Role.user, user_text⟩ : Message) ∈
      (append_user_entry (process_conversation_turn tn st disk o).1
        next_text).conversation_history := by
  have hturn : process_conversation_turn tn st disk o =
      (append_user_entry st user_text, disk ++ [user_input_file tn],
        TurnResult.Failed Stage.response) := by
    simp [process_conversation_turn, generate_response, hcap, htr, hne, herr]
  refine ⟨by rw [hturn], by rw [hturn]; rfl, ?_⟩
  intro next_text
  rw [hturn]
  simp [append_user_entry]

/-- C5 witness: the theorem at a concrete turn whose Response call fails. -/
theorem C5_witness :
    (process_conversation_turn 1 ⟨"Supermarket Shopping", [], []⟩ []
      ⟨some (), Except.ok (TranscriptValue.str "Ik wil een appel"),
        fun _ => Except.error "service down", true, PlaybackOutcome.success⟩).2.2 =
      TurnResult.Failed Stage.response :=
  (C5_failed_response_keeps_user_entry ⟨"Supermarket Shopping", [], []⟩ [] 1
    ⟨some (), Except.ok (TranscriptValue.str "Ik wil een appel"),
      fun _ => Except.error "service down", true, PlaybackOutcome.success⟩
    "Ik wil een appel" "service down" rfl rfl (by decide) rfl).1

/-- C6: when transcription yields an error or the empty string, the turn
returns a transcription-stage failure and the session state (transcript
and raw-utterance log) is exactly what it was before the turn began. -/
theorem C6_failed_transcription_leaves_transcript (st : SessionState)
    (disk : List String) (tn : Nat) (o : TurnOracles)
    (hcap : o.record_result = some ())
    (htr : speech_to_text o.transcription_api = none ∨
      speech_to_text o.transcription_api = some "") :
    (process_conversation_turn tn st disk o).2.2 = TurnResult.Failed Stage.transcription ∧
    (process_conversation_turn tn st disk o).1 = st := by
  rcases htr with h | h <;> simp [process_conversation_turn, hcap, h]

/-- C6 witness: the theorem at a concrete turn whose transcription raises. -/
theorem C6_witness :
    (process_conversation_turn 2 ⟨"Supermarket Shopping", [], []⟩ []
      ⟨some (), Except.error "auth failure",
        fun _ => Except.ok "Goedendag!", true, PlaybackOutcome.success⟩).1 =
      (⟨"Supermarket Shopping", [], []⟩ : SessionState) :=
  (C6_failed_transcription_leaves_transcript ⟨"Supermarket Shopping", [], []⟩ [] 2
    ⟨some (), Except.error "auth failure",
      fun _ => Except.ok "Goedendag!", true, PlaybackOutcome.success⟩
    rfl (Or.inl rfl)).2

/-- C8: when synthesis has succeeded, the playback outcome never changes
anything — the turn still returns Completed for every playback outcome,
and the synthesized audio file is among the files on disk. -/
theorem C8_playback_failure_does_not_downgrade (st : SessionState) (disk : List String)
    (tn : Nat) (o : TurnOracles) (user_text ai_text : String)
    (hcap : o.record_result = some ())
    (htr : speech_to_text o.transcription_api = some user_text)
    (hne : user_text ≠ "")
    (hresp : o.response_api (append_user_entry st user_text).conversation_history =
      Except.ok ai_text)
    (haine : ai_text ≠ "")
    (hsyn : o.synthesis_ok = true) :
    (∀ p : PlaybackOutcome,
      process_conversation_turn tn st disk { o with playback := p } =
        process_conversation_turn tn st disk o) ∧
    (process_conversation_turn tn st disk o).2.2 = TurnResult.Completed ∧
    ai_response_file tn ∈ (process_conversation_turn tn st disk o).2.1 := by
  refine ⟨?_, ?_, ?_⟩
  · intro p
    simp [process_conversation_turn, generate_response, play_audio,
      hcap, htr, hne, hresp, haine, hsyn]
  · simp [process_conversation_turn, generate_response, play_audio,
      hcap, htr, hne, hresp, haine, hsyn]
  · simp [process_conversation_turn, generate_response, play_audio,
      hcap, htr, hne, hresp, haine, hsyn]

/-- C8 witness: the theorem at a concrete turn whose playback errors. -/
theorem C8_witness :
    (process_conversation_turn 1 ⟨"Supermarket Shopping", [], []⟩ []
      ⟨some (), Except.ok (TranscriptValue.str "Ik wil een appel"),
        fun _ => Except.ok "Welke appel wilt u?", true,
        PlaybackOutcome.playbackError⟩).2.2 = TurnResult.Completed :=
  (C8_playback_failure_does_not_downgrade ⟨"Supermarket Shopping", [], []⟩ [] 1
    ⟨some (), Except.ok (TranscriptValue.str "Ik wil een appel"),
      fun _ => Except.ok "Welke appel wilt u?", true, PlaybackOutcome.playbackError⟩
    "Ik wil een appel" "Welke appel wilt u?" rfl rfl (by decide) rfl (by decide) rfl).2.1

/-- C9: when the Response client succeeds but returns an empty reply, the
turn appends the assistant entry with empty content and is still
reported as failed at the response stage, leaving both the user entry
and the empty assistant entry in the transcript. -/
theorem C9_empty_reply_recorded_and_failed (st : SessionState) (disk : List String)
    (tn : Nat) (o : TurnOracles) (user_text : String)
    (hcap : o.record_result = some ())
    (htr : speech_to_text o.transcription_api = some user_text)
    (hne : user_text ≠ "")
    (hresp : o.response_api (append_user_entry st user_text).conversation_history =
      Except.ok "") :
    (process_conversation_turn tn st disk o).2.2 = TurnResult.Failed Stage.response ∧
    (process_conversation_turn tn st disk o).1.conversation_history =
      st.conversation_history ++ [⟨Role.user, user_text⟩, ⟨Role.assistant, ""⟩] := by
  simp only [append_user_entry] at hresp
  constructor <;>
    simp [process_conversation_turn, generate_response, append_user_entry,
      List.append_assoc, hcap, htr, hne, hresp]

/-- C9 witness: the theorem at a concrete turn with an empty reply. -/
theorem C9_witness :
    (process_conversation_turn 1 ⟨"Supermarket Shopping", [], []⟩ []
      ⟨some (), Except.ok (TranscriptValue.str "Ik wil een appel"),
        fun _ => Except.ok "", true, PlaybackOutcome.success⟩).1.conversation_history =
      [⟨Role.user, "Ik wil een appel"⟩, ⟨Role.assistant, ""⟩] :=
  (C9_empty_reply_recorded_and_failed ⟨"Supermarket Shopping", [], []⟩ [] 1
    ⟨some (), Except.ok (TranscriptValue.str "Ik wil een appel"),
      fun _ => Except.ok "", true, PlaybackOutcome.success⟩
    "Ik wil een appel" rfl rfl (by decide) rfl).2

/-- C10: the interactive loop ends the session without attempting a turn
exactly when the prompt input, stripped of surrounding whitespace and
lowercased, equals one of quit, exit or q; in particular the empty
string attempts the turn. -/
theorem C10_quit_check (raw : String) :
    (loop_quit_decision raw = LoopAction.endSession ↔
      (pyLower (pyStrip raw) = "quit" ∨ pyLower (pyStrip raw) = "exit" ∨
        pyLower (pyStrip raw) = "q")) ∧
    loop_quit_decision "" = LoopAction.attemptTurn := by
  have hmem : (pyLower (pyStrip raw) ∈ quit_commands) ↔
      (pyLower (pyStrip raw) = "quit" ∨ pyLower (pyStrip raw) = "exit" ∨
        pyLower (pyStrip raw) = "q") := by
    simp [quit_commands]
  constructor
  · rw [loop_quit_decision]
    by_cases h : pyLower (pyStrip raw) ∈ quit_commands
    · rw [if_pos h]
      exact ⟨fun _ => hmem.mp h, fun _ => rfl⟩
    · rw [if_neg h]
      exact ⟨fun heq => absurd heq (by decide), fun hd => absurd (hmem.mpr hd) h⟩
  · decide

/-- C7 counterexample: with a successful read, then a read error, then
another successful read, the implemented frame loop stops at the error
and keeps only the first frame, whereas skipping the failed read and
continuing (as the claim states) would keep both frames. -/
theorem C7_counterexample_read_error_stops_loop :
    record_frames [FrameRead.frame 0, FrameRead.readError, FrameRead.frame 1] = [0] ∧
    record_frames_spec_skip
      [FrameRead.frame 0, FrameRead.readError, FrameRead.frame 1] = [0, 1] ∧
    record_frames [FrameRead.frame 0, FrameRead.readError, FrameRead.frame 1] ≠
      record_frames_spec_skip
        [FrameRead.frame 0, FrameRead.readError, FrameRead.frame 1] := by
  refine ⟨rfl, rfl, ?_⟩
  decide

/-- C7 (amended): an individual frame-read error is logged and ends the
frame-accumulation loop (it does not skip the frame and continue); the
frames accumulated before the error are kept, the capture proceeds to
save them and returns the file when any frame was accumulated, and
returns an empty-capture failure when none was; there is no separate
device-failure outcome. -/
theorem C7_read_error_truncates_capture (ds : List Nat) (rest : List FrameRead) :
    record_frames (ds.map FrameRead.frame ++ FrameRead.readError :: rest) = ds ∧
    (ds ≠ [] →
      record_audio (ds.map FrameRead.frame ++ FrameRead.readError :: rest) "take.wav" =
        some "take.wav") ∧
    record_audio (FrameRead.readError :: rest) "take.wav" = none := by
  have htr : ∀ ds' : List Nat,
      record_frames (ds'.map FrameRead.frame ++ FrameRead.readError :: rest) = ds' := by
    intro ds'
    induction ds' with
    | nil => rfl
    | cons d tl ih => simp [record_frames, ih]
  refine ⟨htr ds, ?_, rfl⟩
  intro hne
  simp [record_audio, htr ds, List.length_eq_zero, hne]

/-- C7 witness: the amended theorem at a concrete read sequence. -/
theorem C7_witness :
    record_audio ([7].map FrameRead.frame ++ FrameRead.readError :: []) "take.wav" =
      some "take.wav" :=
  (C7_read_error_truncates_capture [7] []).2.1 (by decide)
